import Mathlib

/-
Verification of the tile-lang front end sources against their specification.

The development shallowly embeds the Python sources:
  * tilelang/language/kernel.py  (FrameStack, KernelLaunchFrame, Kernel)
  * tilelang/utils/target.py     (check_cuda_availability, check_hip_availability,
                                  determine_target)
  * tilelang/utils/tensor.py     (get_tensor_supply, torch_assert_close)
  * benchmark/benchmark_matmul.py (get_configs)

Python exceptions are modelled with `Except String`; Python object identity on
kernel-launch frames is modelled by a creation tag `id` carried in the frame
structure; the external torch random-number generator is modelled as an oracle
supplying one stream per distribution, with `torch.randint` expanded to its
documented contract (values drawn from the half-open interval [low, high)).
-/

set_option maxHeartbeats 1000000
set_option maxRecDepth 8192

namespace TL

/-! ### Embedding of tilelang/language/kernel.py -/

/-- A TIR variable, identified by its name hint. -/
structure Var where
  name : String
deriving DecidableEq, Repr

/-- The domain of an iteration variable; only the extent is used by the code. -/
structure Dom where
  extent : Int
deriving DecidableEq, Repr

/-- An iteration variable together with its domain, as stored in a TIR frame. -/
structure IterVar where
  var : Var
  dom : Dom
deriving DecidableEq, Repr

/-- One entry of `KernelLaunchFrame.frames`: a launch-thread sub-frame binding
one iteration variable. -/
structure SubFrame where
  iter_var : IterVar
deriving DecidableEq, Repr

/-- `KernelLaunchFrame`: holds the ordered sub-frame list produced by the
block/thread binding machinery.  The `id` field models Python object identity
(`is`): two frames created separately carry distinct ids. -/
structure KernelLaunchFrame where
  id : Nat
  frames : List SubFrame
deriving DecidableEq, Repr

/-- The process-wide `_kernel_launch_frame_stack`, head = top of stack. -/
abbrev Stack := List KernelLaunchFrame

/-- `FrameStack.push`: appends an item at the top. -/
def FrameStack.push (item : KernelLaunchFrame) (st : Stack) : Stack :=
  item :: st

/-- `FrameStack.top`: returns the top item, or raises `IndexError` when the
stack is empty (the docstring promises `None`, but the code raises). -/
def FrameStack.top (st : Stack) : Except String KernelLaunchFrame :=
  match st with
  | [] => Except.error "IndexError: FrameStack is empty"
  | t :: _ => Except.ok t

/-- `FrameStack.pop`: removes and returns the top item, or raises `IndexError`
when the stack is empty. -/
def FrameStack.pop (st : Stack) : Except String (KernelLaunchFrame × Stack) :=
  match st with
  | [] => Except.error "IndexError: FrameStack is empty"
  | t :: rest => Except.ok (t, rest)

/-- Result of `KernelLaunchFrame.__enter__`: a single block-index variable, or
a list of them. -/
inductive EnterResult where
  | single (v : Var)
  | multiple (vs : List Var)
deriving DecidableEq, Repr

/-- `KernelLaunchFrame.__enter__`: pushes the frame on the process-wide stack;
returns `frames[0].iter_var.var` when there are exactly 5 sub-frames, and
otherwise the list of `iter_var.var` of `frames[0:-4]`. -/
def enterFrame (self : KernelLaunchFrame) (st : Stack) : EnterResult × Stack :=
  let st2 := FrameStack.push self st
  if self.frames.length = 5 then
    match self.frames with
    | f :: _ => (EnterResult.single f.iter_var.var, st2)
    | [] => (EnterResult.multiple [], st2)
  else
    (EnterResult.multiple
      ((self.frames.take (self.frames.length - 4)).map fun f => f.iter_var.var), st2)

/-- `KernelLaunchFrame.__exit__`: queries the top of the stack (raising
`IndexError` when the stack is empty) and pops this frame only when it is the
topmost one. -/
def exitFrame (self : KernelLaunchFrame) (st : Stack) : Except String Stack :=
  match st with
  | [] => Except.error "IndexError: FrameStack is empty"
  | t :: rest => if t = self then Except.ok rest else Except.ok (t :: rest)

/-- `KernelLaunchFrame.Current`: delegates to `FrameStack.top`, so it raises
`IndexError` on an empty stack despite its docstring promising `None`. -/
def Current (st : Stack) : Except String KernelLaunchFrame :=
  FrameStack.top st

/-! ### Embedding of the `Kernel` constructor (threads normalization) -/

/-- The dynamic Python value passed as the `threads` argument. -/
inductive PyThreads where
  | int (n : Int)
  | list (xs : List Int)
  | tuple (xs : List Int)
  | other (reprStr : String)
deriving DecidableEq, Repr

/-- The call to the external `_ffi_api.KernelLaunch(blocks, threads, attrs)`
that `Kernel` builds. -/
structure KernelLaunchCall where
  blocks : List Int
  threads : List Int
  pragma_import_c : Option String
deriving DecidableEq, Repr

/-- `Kernel`: normalizes `threads` (an integer becomes `[t, 1, 1]`; a list or
tuple is right-padded with 1s up to length 3; anything else raises
`ValueError`) and forwards to the external launch constructor. -/
def Kernel (blocks : List Int) (threads : PyThreads) (prelude : Option String) :
    Except String KernelLaunchCall :=
  match threads with
  | PyThreads.int n => Except.ok ⟨blocks, [n, 1, 1], prelude⟩
  | PyThreads.list xs => Except.ok ⟨blocks, xs ++ List.replicate (3 - xs.length) 1, prelude⟩
  | PyThreads.tuple xs => Except.ok ⟨blocks, xs ++ List.replicate (3 - xs.length) 1, prelude⟩
  | PyThreads.other _ =>
      Except.error "ValueError: threads must be an integer or a list of integers"

/-- A sub-frame carrying a named iteration variable with the given extent. -/
def svar (s : String) (e : Int) : SubFrame :=
  ⟨⟨⟨s⟩, ⟨e⟩⟩⟩

/-- Sample sub-frame list of a launch with one block dimension (5 frames). -/
def sampleFrames5 : List SubFrame :=
  [svar "bx" 8, svar "tx" 128, svar "ty" 1, svar "tz" 1, svar "aux" 1]

/-- Sample sub-frame list of a launch with two block dimensions (6 frames). -/
def sampleFrames6 : List SubFrame :=
  [svar "bx" 8, svar "by" 4, svar "tx" 64, svar "ty" 2, svar "tz" 1, svar "aux" 1]

/-! ### Embedding of tilelang/utils/target.py -/

/-- An already-constructed tvm `Target` descriptor (external, treated as
opaque up to its kind tag). -/
structure Target where
  kind : String
deriving DecidableEq, Repr

/-- The dynamic Python value passed to `determine_target`: a string or a
`Target` object. -/
inductive PyTarget where
  | str (s : String)
  | target (t : Target)
deriving DecidableEq, Repr

/-- The probed environment: the paths reported by the external
`nvcc.find_cuda_path` and `rocm.find_rocm_path` helpers, `none` when the
lookup raises. -/
structure Env where
  cuda_path : Option String
  rocm_path : Option String

/-- Embeds `check_cuda_availability`: true iff `nvcc.find_cuda_path`
succeeds, false on any lookup failure. -/
def check_cuda_availability (env : Env) : Bool :=
  env.cuda_path.isSome

/-- Embeds `check_hip_availability`: true iff `rocm.find_rocm_path`
succeeds, false on any lookup failure. -/
def check_hip_availability (env : Env) : Bool :=
  env.rocm_path.isSome

/-- Embeds `determine_target`: resolves "auto" by probing CUDA then HIP
(raising `ValueError` when neither is available); any other value must be a
`Target` object or one of "cuda"/"hip" (else the assertion fails) and is
returned unchanged. -/
def determine_target (env : Env) (target : PyTarget) : Except String PyTarget :=
  if target = PyTarget.str "auto" then
    let is_cuda_available := check_cuda_availability env
    let is_hip_available := check_hip_availability env
    if is_cuda_available then Except.ok (PyTarget.str "cuda")
    else if is_hip_available then Except.ok (PyTarget.str "hip")
    else Except.error "ValueError: No CUDA or HIP available on this system."
  else
    match target with
    | PyTarget.target _ => Except.ok target
    | PyTarget.str s =>
        if s = "cuda" ∨ s = "hip" then Except.ok target
        else Except.error ("AssertionError: Target " ++ s ++ " is not supported")

/-! ### Embedding of benchmark/benchmark_matmul.py (get_configs) -/

/-- The rasterization plan attached to a roller hint; `noRasterization` is
the external marker type for "no rasterization". -/
inductive RasterizationPlan where
  | noRasterization
  | raster (panelWidth : Nat)
deriving DecidableEq, Repr

/-- A tiling hint returned by the external roller search: block shape, warp
shape, reduction steps, and a rasterization plan. -/
structure RollerHint where
  block : Nat × Nat
  warp : Nat × Nat
  rstep : List Nat
  rasterization_plan : RasterizationPlan
deriving DecidableEq, Repr

/-- One tuning configuration dictionary. -/
structure Config where
  block_M : Nat
  block_N : Nat
  block_K : Nat
  num_stages : Nat
  thread_num : Nat
  enable_rasteration : Bool
deriving DecidableEq, Repr

/-- Body of the per-hint loop of `get_configs`: `hint.rstep[0]` raises
`IndexError` on an empty list and the Python `//` raises `ZeroDivisionError`
on a zero warp product; otherwise the configuration dictionary is built. -/
def config_of_hint (hint : RollerHint) : Except String Config :=
  match hint.rstep with
  | [] => Except.error "IndexError: list index out of range"
  | r :: _ =>
      if hint.warp.1 * hint.warp.2 = 0 then
        Except.error "ZeroDivisionError: integer division or modulo by zero"
      else
        Except.ok
          { block_M := hint.block.1
            block_N := hint.block.2
            block_K := r
            num_stages := 0
            thread_num := hint.block.1 * hint.block.2 / (hint.warp.1 * hint.warp.2) * 32
            enable_rasteration :=
              decide (hint.rasterization_plan ≠ RasterizationPlan.noRasterization) }

/-- The Cartesian product enumerated by `itertools.product` over the six
fixed candidate lists, in row-major order (last factor varying fastest). -/
def bruteProductTuples : List (Nat × Nat × Nat × Nat × Nat × Bool) :=
  [64, 128, 256].flatMap fun bm =>
    [64, 128, 256].flatMap fun bn =>
      [32, 64].flatMap fun bk =>
        [0, 1, 2, 3].flatMap fun ns =>
          [128, 256].flatMap fun tn =>
            [true, false].map fun er => (bm, bn, bk, ns, tn, er)

/-- The brute-force configuration list built from the product tuples. -/
def bruteConfigs : List Config :=
  bruteProductTuples.map fun c =>
    ⟨c.1, c.2.1, c.2.2.1, c.2.2.2.1, c.2.2.2.2.1, c.2.2.2.2.2⟩

/-- Embeds `get_configs`: with `with_roller` the hints of the external roller
search (`none` when it found nothing, raising `ValueError`) are translated
hint by hint; otherwise the fixed brute-force Cartesian product is returned.
`M`, `N`, `K` only parameterize the external hint query, here passed in as
the oracle `roller_hints`. -/
def get_configs (M N K : Nat) (with_roller : Bool)
    (roller_hints : Option (List RollerHint)) : Except String (List Config) :=
  if with_roller then
    match roller_hints with
    | none => Except.error "ValueError: No Roller Hints Found for TensorCore Scheduling"
    | some hints => hints.mapM config_of_hint
  else
    Except.ok bruteConfigs

/-- A sample roller hint used to witness the hint-translation theorem. -/
def sampleHint : RollerHint :=
  ⟨(128, 128), (64, 64), [32], RasterizationPlan.raster 10⟩

/-! ### Embedding of tilelang/utils/tensor.py -/

/-- The distribution enumeration `TensorSupplyType`. -/
inductive TensorSupplyType where
  | Integer
  | Uniform
  | Normal
  | Randn
  | Zero
  | One
deriving DecidableEq, Repr

/-- The dynamic Python value passed as `supply_type`: a member of the
enumeration, or any other value carried as its printed form. -/
inductive PySupply where
  | known (t : TensorSupplyType)
  | unknown (reprStr : String)
deriving DecidableEq, Repr

/-- Printed form of the supply value, as interpolated into the
`NotImplementedError` message. -/
def pySupplyRepr : PySupply → String
  | PySupply.known TensorSupplyType.Integer => "TensorSupplyType.Integer"
  | PySupply.known TensorSupplyType.Uniform => "TensorSupplyType.Uniform"
  | PySupply.known TensorSupplyType.Normal => "TensorSupplyType.Normal"
  | PySupply.known TensorSupplyType.Randn => "TensorSupplyType.Randn"
  | PySupply.known TensorSupplyType.Zero => "TensorSupplyType.Zero"
  | PySupply.known TensorSupplyType.One => "TensorSupplyType.One"
  | PySupply.unknown s => s

/-- The element types this utility distinguishes; only `int8` changes the
control flow. -/
inductive TorchDtype where
  | int8
  | float16
  | float32
  | int32
deriving DecidableEq, Repr

/-- Shape and element-type descriptor of the requested tensor. -/
structure TensorType where
  dtype : TorchDtype
  shape : List Nat
deriving DecidableEq, Repr

/-- Number of elements of the requested shape. -/
def numel (t : TensorType) : Nat :=
  t.shape.foldl (fun a b => a * b) 1

/-- Oracle for the external torch random streams: one independent stream per
distribution, indexed by element position. -/
structure Entropy where
  ints : Nat → Nat
  uniformSamples : Nat → ℚ
  normalSamples : Nat → ℚ
  randnSamples : Nat → ℚ

/-- Modelled from the documented contract of the external `torch.randint`:
every drawn value lies in the half-open interval `[low, high)`. -/
def torch_randint (low high : Int) (n : Nat) (e : Nat → Nat) : List Int :=
  (List.range n).map fun i => low + (e i : Int) % (high - low)

/-- The generator closure produced by `get_tensor_supply` (named `get_tensor`
in the source), with the external torch random streams passed as an oracle.
Tensor contents are modelled as a flattened list of rationals. -/
def get_tensor (supply_type : PySupply) (e : Entropy) (tensor : TensorType) :
    Except String (List ℚ) :=
  if tensor.dtype = TorchDtype.int8 ∧
      (supply_type = PySupply.known TensorSupplyType.Uniform ∨
       supply_type = PySupply.known TensorSupplyType.Normal) then
    Except.ok (List.replicate (numel tensor) 1)
  else if supply_type = PySupply.known TensorSupplyType.Integer then
    Except.ok ((torch_randint (-2) 3 (numel tensor) e.ints).map fun z : Int => (z : ℚ))
  else if supply_type = PySupply.known TensorSupplyType.Uniform then
    Except.ok ((List.range (numel tensor)).map e.uniformSamples)
  else if supply_type = PySupply.known TensorSupplyType.Normal then
    Except.ok ((List.range (numel tensor)).map e.normalSamples)
  else if supply_type = PySupply.known TensorSupplyType.Randn then
    Except.ok ((List.range (numel tensor)).map e.randnSamples)
  else if supply_type = PySupply.known TensorSupplyType.Zero then
    Except.ok (List.replicate (numel tensor) 0)
  else if supply_type = PySupply.known TensorSupplyType.One then
    Except.ok (List.replicate (numel tensor) 1)
  else
    Except.error ("NotImplementedError: " ++ pySupplyRepr supply_type)

/-- Embeds `get_tensor_supply`: returns the generator closure. -/
def get_tensor_supply (supply_type : PySupply) (e : Entropy) :
    TensorType → Except String (List ℚ) :=
  fun tensor => get_tensor supply_type e tensor

/-- Python `int()` applied to a real number: truncation toward zero. -/
def pyInt (q : ℚ) : Int :=
  if 0 ≤ q then ⌊q⌋ else ⌈q⌉

/-- Maximum element of a tensor (`torch.max`); the only uses here are on
non-empty tensors of non-negative entries, for which the 0 default never
shrinks the result. -/
def listMax : List ℚ → ℚ
  | [] => 0
  | x :: xs => xs.foldl max x

/-- The error object raised by `torch_assert_close`, carrying the quantities
interpolated into its message. -/
structure AssertCloseError where
  num_mismatched : Nat
  max_allowed : Int
  allowed_percent : ℚ
  greatest_abs_diff : ℚ
  greatest_rel_diff : ℚ
deriving DecidableEq, Repr

/-- Embeds `torch_assert_close`: element-wise comparison of two (flattened)
tensors under tolerances `rtol`/`atol` and an allowed mismatch budget `mmr`
(the `max_mismatched_ratio` argument); raises an `AssertionError` carrying
the reported quantities when the budget is exceeded, returns `True`
otherwise. -/
def torch_assert_close (tensor_a tensor_b : List ℚ) (rtol atol mmr : ℚ) :
    Except AssertCloseError Bool :=
  let diff := List.zipWith (fun x y => |x - y|) tensor_a tensor_b
  let max_diff := tensor_b.map fun y => atol + rtol * |y|
  let mismatched := List.zipWith (fun d m => decide (d > m)) diff max_diff
  let num_mismatched := mismatched.count true
  let total_elements := tensor_a.length
  let max_allowed_mismatched := pyInt ((total_elements : ℚ) * mmr)
  if (num_mismatched : Int) > max_allowed_mismatched then
    Except.error
      { num_mismatched := num_mismatched
        max_allowed := max_allowed_mismatched
        allowed_percent := mmr * 100
        greatest_abs_diff := listMax diff
        greatest_rel_diff :=
          listMax (List.zipWith (fun d y => d / (|y| + 1 / 1000000000000)) diff tensor_b) }
  else
    Except.ok true

/-- Claim-side count of the element pairs whose difference exceeds the
allowed per-element tolerance. -/
def mismatchCount (a b : List ℚ) (rtol atol : ℚ) : Nat :=
  (a.zip b).countP fun p => decide (|p.1 - p.2| > atol + rtol * |p.2|)

/-- Claim-side greatest absolute difference over the zipped element pairs. -/
def greatestAbsDiff (a b : List ℚ) : ℚ :=
  listMax ((a.zip b).map fun p => |p.1 - p.2|)

/-- Claim-side greatest relative difference over the zipped element pairs. -/
def greatestRelDiff (a b : List ℚ) : ℚ :=
  listMax ((a.zip b).map fun p => |p.1 - p.2| / (|p.2| + 1 / 1000000000000))

/-- An injective numeric key for a configuration, chosen so that the
brute-force enumeration order is strictly increasing. -/
def encodeConfig (c : Config) : Nat :=
  ((((c.block_M * 512 + c.block_N) * 512 + c.block_K) * 8 + c.num_stages) * 512
    + c.thread_num) * 2 + (if c.enable_rasteration then 0 else 1)

/-- Boolean check that a list of naturals is strictly increasing. -/
def strictChainB : List Nat → Bool
  | [] => true
  | [_] => true
  | a :: b :: rest => decide (a < b) && strictChainB (b :: rest)

/-! ### Theorems about the kernel launch scope -/

/-- The stack component of entering a frame is always a push of that frame. -/
theorem enterFrame_stack (self : KernelLaunchFrame) (st : Stack) :
    (enterFrame self st).2 = self :: st := by
  unfold enterFrame FrameStack.push
  split
  · split <;> rfl
  · rfl

/-- C1: entering a kernel launch scope returns the single block-index variable
of frame 0 directly when the total number of sub-frames is exactly 5, and
otherwise returns the ordered list of block-index variables of all sub-frames
except the last 4, whose length is the number of declared block dimensions. -/
theorem C1_enter_returns (self : KernelLaunchFrame) (st : Stack) (f : SubFrame)
    (rest : List SubFrame) :
    (self.frames = f :: rest → self.frames.length = 5 →
      (enterFrame self st).1 = EnterResult.single f.iter_var.var) ∧
    (self.frames.length ≠ 5 →
      (enterFrame self st).1 = EnterResult.multiple
        ((self.frames.take (self.frames.length - 4)).map fun fr => fr.iter_var.var) ∧
      ((self.frames.take (self.frames.length - 4)).map fun fr => fr.iter_var.var).length
        = self.frames.length - 4) := by
  constructor
  · intro hf h5
    have h4 : rest.length = 4 := by
      rw [hf] at h5
      simpa using h5
    simp [enterFrame, hf, h5, h4]
  · intro h5
    refine ⟨by simp [enterFrame, h5], ?_⟩
    simp [List.length_take]

/-- C1 witness: a 5-frame launch yields the single variable of frame 0, and a
6-frame launch yields the 2-element list of block variables. -/
theorem C1_enter_returns_witness :
    (enterFrame ⟨0, sampleFrames5⟩ []).1 = EnterResult.single ⟨"bx"⟩ ∧
    (enterFrame ⟨1, sampleFrames6⟩ []).1 = EnterResult.multiple [⟨"bx"⟩, ⟨"by"⟩] :=
  ⟨(C1_enter_returns ⟨0, sampleFrames5⟩ [] (svar "bx" 8)
      [svar "tx" 128, svar "ty" 1, svar "tz" 1, svar "aux" 1]).1 rfl (by decide),
   ((C1_enter_returns ⟨1, sampleFrames6⟩ [] (svar "bx" 8) []).2 (by decide)).1⟩

/-- C2: the process-wide stack is LIFO: entering pushes the scope on top;
exiting pops the scope only when it is still the top (a stack with a different
top is left unchanged); and for a properly nested A-then-B sequence, exiting B
restores A as the current scope and exiting A afterwards empties the stack. -/
theorem C2_stack_lifo (A B t : KernelLaunchFrame) (st rest : Stack) (hne : t ≠ A) :
    ((enterFrame A st).2 = A :: st) ∧
    (exitFrame A (A :: rest) = Except.ok rest) ∧
    (exitFrame A (t :: rest) = Except.ok (t :: rest)) ∧
    (Current (enterFrame B (enterFrame A []).2).2 = Except.ok B ∧
     exitFrame B (enterFrame B (enterFrame A []).2).2 = Except.ok [A] ∧
     Current [A] = Except.ok A ∧
     exitFrame A [A] = Except.ok []) := by
  refine ⟨enterFrame_stack A st, by simp [exitFrame], by simp [exitFrame, hne], ?_⟩
  rw [enterFrame_stack A [], enterFrame_stack B [A]]
  refine ⟨rfl, by simp [exitFrame], rfl, by simp [exitFrame]⟩

/-- C2 witness: concrete push/pop behavior on frames with distinct identities. -/
theorem C2_stack_lifo_witness :
    (enterFrame ⟨0, []⟩ []).2 = [⟨0, []⟩] ∧
    exitFrame ⟨0, []⟩ [⟨0, []⟩] = Except.ok [] ∧
    exitFrame ⟨0, []⟩ [⟨1, []⟩] = Except.ok [⟨1, []⟩] :=
  ⟨(C2_stack_lifo ⟨0, []⟩ ⟨1, []⟩ ⟨1, []⟩ [] [] (by decide)).1,
   (C2_stack_lifo ⟨0, []⟩ ⟨1, []⟩ ⟨1, []⟩ [] [] (by decide)).2.1,
   (C2_stack_lifo ⟨0, []⟩ ⟨1, []⟩ ⟨1, []⟩ [] [] (by decide)).2.2.1⟩

/-- C3: contrary to the claim (and to the docstrings of `FrameStack.top` and
`KernelLaunchFrame.Current`, which promise `None`), querying the current scope
with an empty stack raises `IndexError` instead of returning a defined
no-active-scope value. -/
theorem C3_current_empty_raises :
    Current ([] : Stack) = Except.error "IndexError: FrameStack is empty" := rfl

/-- C10: exiting a kernel launch scope raises `IndexError` when the
process-wide stack is empty, and completes without error exactly when the
stack is non-empty. -/
theorem C10_exit_requires_nonempty (self : KernelLaunchFrame) (st : Stack) :
    (exitFrame self [] = Except.error "IndexError: FrameStack is empty") ∧
    ((∃ st2, exitFrame self st = Except.ok st2) ↔ st ≠ []) := by
  refine ⟨rfl, ?_⟩
  cases st with
  | nil => simp [exitFrame]
  | cons t rest =>
      simp only [exitFrame]
      constructor
      · intro _
        exact List.cons_ne_nil t rest
      · intro _
        by_cases h : t = self
        · exact ⟨rest, by simp [h]⟩
        · exact ⟨t :: rest, by simp [h]⟩

/-- C9: the `threads` argument of `Kernel` is normalized: an integer `t`
becomes `[t, 1, 1]`; a list or tuple of up to 3 integers is right-padded with
1s to length 3; a value of any other type raises `ValueError`. -/
theorem C9_threads_normalization (blocks : List Int) (t : Int) (xs ys : List Int)
    (p : Option String) (s : String) (hxs : xs.length ≤ 3) (hys : ys.length ≤ 3) :
    (Kernel blocks (PyThreads.int t) p = Except.ok ⟨blocks, [t, 1, 1], p⟩) ∧
    (Kernel blocks (PyThreads.list xs) p =
        Except.ok ⟨blocks, xs ++ List.replicate (3 - xs.length) 1, p⟩ ∧
      (xs ++ List.replicate (3 - xs.length) 1).length = 3) ∧
    (Kernel blocks (PyThreads.tuple ys) p =
        Except.ok ⟨blocks, ys ++ List.replicate (3 - ys.length) 1, p⟩ ∧
      (ys ++ List.replicate (3 - ys.length) 1).length = 3) ∧
    (Kernel blocks (PyThreads.other s) p =
        Except.error "ValueError: threads must be an integer or a list of integers") := by
  refine ⟨rfl, ⟨rfl, ?_⟩, ⟨rfl, ?_⟩, rfl⟩ <;> simp <;> omega

/-- C9 witness: concrete normalizations of an integer and a short list. -/
theorem C9_threads_normalization_witness :
    Kernel [8] (PyThreads.int 128) none = Except.ok ⟨[8], [128, 1, 1], none⟩ ∧
    Kernel [8] (PyThreads.list [64, 2]) none = Except.ok ⟨[8], [64, 2, 1], none⟩ :=
  ⟨(C9_threads_normalization [8] 128 [64, 2] [] none "x" (by decide) (by decide)).1,
   (C9_threads_normalization [8] 128 [64, 2] [] none "x" (by decide) (by decide)).2.1.1⟩

/-! ### Theorems about the target resolver -/

/-- C7: `determine_target "auto"` returns "cuda" whenever the CUDA probe
succeeds, "hip" when only the HIP probe succeeds, and raises `ValueError`
when neither does; any other input is returned unchanged when it is a
`Target` object or one of "cuda"/"hip", and raises the assertion otherwise. -/
theorem C7_determine_target (env : Env) (s : String) (tg : Target)
    (hs : s ≠ "auto") (hc : s ≠ "cuda") (hh : s ≠ "hip") :
    (check_cuda_availability env = true →
      determine_target env (PyTarget.str "auto") = Except.ok (PyTarget.str "cuda")) ∧
    (check_cuda_availability env = false → check_hip_availability env = true →
      determine_target env (PyTarget.str "auto") = Except.ok (PyTarget.str "hip")) ∧
    (check_cuda_availability env = false → check_hip_availability env = false →
      determine_target env (PyTarget.str "auto") =
        Except.error "ValueError: No CUDA or HIP available on this system.") ∧
    (determine_target env (PyTarget.target tg) = Except.ok (PyTarget.target tg)) ∧
    (determine_target env (PyTarget.str "cuda") = Except.ok (PyTarget.str "cuda")) ∧
    (determine_target env (PyTarget.str "hip") = Except.ok (PyTarget.str "hip")) ∧
    (determine_target env (PyTarget.str s) =
      Except.error ("AssertionError: Target " ++ s ++ " is not supported")) := by
  refine ⟨?_, ?_, ?_, ?_, ?_, ?_, ?_⟩
  · intro h
    simp [determine_target, h]
  · intro h1 h2
    simp [determine_target, h1, h2]
  · intro h1 h2
    simp [determine_target, h1, h2]
  · simp [determine_target]
  · simp [determine_target]
  · simp [determine_target]
  · simp [determine_target, hs, hc, hh]

/-- C7 witness: concrete probes and a concrete unsupported target string. -/
theorem C7_determine_target_witness :
    determine_target ⟨some "/usr/local/cuda", none⟩ (PyTarget.str "auto") =
      Except.ok (PyTarget.str "cuda") ∧
    determine_target ⟨none, none⟩ (PyTarget.str "opencl") =
      Except.error ("AssertionError: Target " ++ "opencl" ++ " is not supported") :=
  ⟨(C7_determine_target ⟨some "/usr/local/cuda", none⟩ "opencl" ⟨"cuda"⟩
      (by decide) (by decide) (by decide)).1 rfl,
   (C7_determine_target ⟨none, none⟩ "opencl" ⟨"cuda"⟩
      (by decide) (by decide) (by decide)).2.2.2.2.2.2⟩

/-! ### Theorems about the benchmark configuration builder -/

/-- A successful boolean strict-chain check yields the chain proposition. -/
theorem strictChainB_chain' (l : List Nat) :
    strictChainB l = true → List.Chain' (fun a b => a < b) l := by
  induction l with
  | nil => intro _; simp
  | cons a t ih =>
      cases t with
      | nil => intro _; simp
      | cons b rest =>
          intro h
          simp only [strictChainB, Bool.and_eq_true, decide_eq_true_eq] at h
          exact List.chain'_cons.2 ⟨h.1, ih h.2⟩

/-- The encoded brute-force enumeration is strictly increasing. -/
theorem bruteConfigs_encoded_chain :
    List.Chain' (fun a b => a < b) (bruteConfigs.map encodeConfig) :=
  strictChainB_chain' _ (by decide)

/-- The brute-force configuration list has no duplicate entries. -/
theorem bruteConfigs_nodup : bruteConfigs.Nodup := by
  have hpair : (bruteConfigs.map encodeConfig).Pairwise (fun a b => a < b) :=
    List.chain'_iff_pairwise.mp bruteConfigs_encoded_chain
  have hmap : (bruteConfigs.map encodeConfig).Nodup :=
    hpair.imp fun h => Nat.ne_of_lt h
  exact hmap.of_map encodeConfig

/-- Every choice from the six candidate sets appears among the product
tuples. -/
theorem mem_bruteProductTuples (bm bn bk ns tn : Nat) (er : Bool)
    (h1 : bm ∈ [64, 128, 256]) (h2 : bn ∈ [64, 128, 256]) (h3 : bk ∈ [32, 64])
    (h4 : ns ∈ [0, 1, 2, 3]) (h5 : tn ∈ [128, 256]) (h6 : er ∈ [true, false]) :
    (bm, bn, bk, ns, tn, er) ∈ bruteProductTuples := by
  simp only [bruteProductTuples, List.mem_flatMap, List.mem_map]
  exact ⟨bm, h1, bn, h2, bk, h3, ns, h4, tn, h5, er, h6, rfl⟩

/-- C6: the brute-force path of `get_configs` returns exactly 288 distinct
configurations for every problem size: the full Cartesian product of the six
fixed candidate sets, with no duplicates and no omissions. -/
theorem C6_brute_force_configs (M N K : Nat) (hints : Option (List RollerHint)) :
    get_configs M N K false hints = Except.ok bruteConfigs ∧
    bruteConfigs.length = 288 ∧
    bruteConfigs.Nodup ∧
    (∀ c ∈ bruteConfigs,
      c.block_M ∈ [64, 128, 256] ∧ c.block_N ∈ [64, 128, 256] ∧ c.block_K ∈ [32, 64] ∧
      c.num_stages ∈ [0, 1, 2, 3] ∧ c.thread_num ∈ [128, 256] ∧
      c.enable_rasteration ∈ [true, false]) ∧
    (∀ bm ∈ [64, 128, 256], ∀ bn ∈ [64, 128, 256], ∀ bk ∈ [32, 64],
      ∀ ns ∈ [0, 1, 2, 3], ∀ tn ∈ [128, 256], ∀ er ∈ [true, false],
        (⟨bm, bn, bk, ns, tn, er⟩ : Config) ∈ bruteConfigs) := by
  refine ⟨rfl, by decide, bruteConfigs_nodup, by decide, ?_⟩
  intro bm h1 bn h2 bk h3 ns h4 tn h5 er h6
  have ht := mem_bruteProductTuples bm bn bk ns tn er h1 h2 h3 h4 h5 h6
  exact List.mem_map.2 ⟨(bm, bn, bk, ns, tn, er), ht, rfl⟩

/-- C8: the hint-translation loop of `get_configs` derives each configuration
from the roller hint exactly as specified: block shape into `block_M`/`block_N`,
first reduction step into `block_K`, `num_stages` 0, `thread_num` equal to
`block_M * block_N / (warp_M * warp_N) * 32`, and `enable_rasteration` true
iff the hint has a non-default rasterization plan. -/
theorem C8_roller_config (M N K : Nat) (hints : List RollerHint) (hint : RollerHint)
    (r : Nat) (rest : List Nat) (hr : hint.rstep = r :: rest)
    (hw : hint.warp.1 * hint.warp.2 ≠ 0) :
    get_configs M N K true (some hints) = hints.mapM config_of_hint ∧
    ∃ cfg, config_of_hint hint = Except.ok cfg ∧
      cfg.block_M = hint.block.1 ∧ cfg.block_N = hint.block.2 ∧
      cfg.block_K = r ∧ cfg.num_stages = 0 ∧
      cfg.thread_num = hint.block.1 * hint.block.2 / (hint.warp.1 * hint.warp.2) * 32 ∧
      (cfg.enable_rasteration = true ↔
        hint.rasterization_plan ≠ RasterizationPlan.noRasterization) := by
  refine ⟨rfl, ⟨⟨hint.block.1, hint.block.2, r, 0,
    hint.block.1 * hint.block.2 / (hint.warp.1 * hint.warp.2) * 32,
    decide (hint.rasterization_plan ≠ RasterizationPlan.noRasterization)⟩,
    ?_, rfl, rfl, rfl, rfl, rfl, ?_⟩⟩
  · simp [config_of_hint, hr, hw]
  · simp

/-- C8 witness: translation of a concrete roller hint. -/
theorem C8_roller_config_witness :
    get_configs 1024 1024 1024 true (some [sampleHint]) = [sampleHint].mapM config_of_hint ∧
    ∃ cfg, config_of_hint sampleHint = Except.ok cfg ∧
      cfg.block_M = 128 ∧ cfg.block_N = 128 ∧ cfg.block_K = 32 ∧ cfg.num_stages = 0 ∧
      cfg.thread_num = 128 * 128 / (64 * 64) * 32 ∧
      (cfg.enable_rasteration = true ↔
        sampleHint.rasterization_plan ≠ RasterizationPlan.noRasterization) :=
  C8_roller_config 1024 1024 1024 [sampleHint] sampleHint 32 [] rfl (by decide)

/-! ### Theorems about the tensor supply and comparison utility -/

/-- C5: the tensor generator returns all ones for 8-bit integer tensors under
`Uniform` or `Normal`; draws `Integer` samples from the half-open range
`[-2, 3)`; fills with the constants 0 and 1 for `Zero` and `One`; and raises
`NotImplementedError` naming the value for an unrecognized distribution. -/
theorem C5_tensor_supply (e : Entropy) (t : TensorType) (shape : List Nat) (s : String) :
    (get_tensor_supply (PySupply.known TensorSupplyType.Uniform) e ⟨TorchDtype.int8, shape⟩ =
      Except.ok (List.replicate (numel ⟨TorchDtype.int8, shape⟩) 1)) ∧
    (get_tensor_supply (PySupply.known TensorSupplyType.Normal) e ⟨TorchDtype.int8, shape⟩ =
      Except.ok (List.replicate (numel ⟨TorchDtype.int8, shape⟩) 1)) ∧
    (∃ l, get_tensor_supply (PySupply.known TensorSupplyType.Integer) e t = Except.ok l ∧
      ∀ x ∈ l, (-2 : ℚ) ≤ x ∧ x < 3) ∧
    (get_tensor_supply (PySupply.known TensorSupplyType.Zero) e t =
      Except.ok (List.replicate (numel t) 0)) ∧
    (get_tensor_supply (PySupply.known TensorSupplyType.One) e t =
      Except.ok (List.replicate (numel t) 1)) ∧
    (get_tensor_supply (PySupply.unknown s) e t =
      Except.error ("NotImplementedError: " ++ s)) := by
  refine ⟨by simp [get_tensor_supply, get_tensor],
    by simp [get_tensor_supply, get_tensor], ?_,
    by simp [get_tensor_supply, get_tensor],
    by simp [get_tensor_supply, get_tensor],
    by simp [get_tensor_supply, get_tensor, pySupplyRepr]⟩
  refine ⟨(torch_randint (-2) 3 (numel t) e.ints).map fun z : Int => (z : ℚ),
    by simp [get_tensor_supply, get_tensor], ?_⟩
  intro x hx
  rw [torch_randint, List.map_map] at hx
  simp only [List.mem_map, List.mem_range, Function.comp] at hx
  obtain ⟨i, _, hxeq⟩ := hx
  subst hxeq
  have hm0 : (0 : Int) ≤ (e.ints i : Int) % (3 - -2) := Int.emod_nonneg _ (by norm_num)
  have hm5 : (e.ints i : Int) % (3 - -2) < 5 := by
    have := Int.emod_lt_of_pos (e.ints i : Int) (show (0 : Int) < 3 - -2 by norm_num)
    simpa using this
  constructor
  · have : (-2 : Int) ≤ -2 + (e.ints i : Int) % (3 - -2) := by linarith
    exact_mod_cast this
  · have : (-2 : Int) + (e.ints i : Int) % (3 - -2) < 3 := by linarith
    exact_mod_cast this

/-! ### Helper lemmas for the tensor comparison -/

/-- Elementwise binary tensor operations as maps over the zipped pairs. -/
theorem zipWith_eq_map_zip {β : Type} (f : ℚ → ℚ → β) :
    ∀ a b : List ℚ, List.zipWith f a b = (a.zip b).map fun p => f p.1 p.2
  | [], _ => by simp
  | _ :: _, [] => by simp
  | x :: a, y :: b => by
      simp only [List.zipWith_cons_cons, List.zip_cons_cons, List.map_cons]
      rw [zipWith_eq_map_zip f a b]

/-- An elementwise operation of an elementwise difference against a mapped
second operand, as a single map over the zipped pairs. -/
theorem zipWith_zipWith_map {β : Type} (f : ℚ → ℚ → ℚ) (g : ℚ → ℚ) (h : ℚ → ℚ → β) :
    ∀ a b : List ℚ, List.zipWith h (List.zipWith f a b) (b.map g)
      = (a.zip b).map fun p => h (f p.1 p.2) (g p.2)
  | [], _ => by simp
  | _ :: _, [] => by simp
  | x :: a, y :: b => by
      simp only [List.zipWith_cons_cons, List.map_cons, List.zip_cons_cons]
      rw [zipWith_zipWith_map f g h a b]

/-- An elementwise operation of an elementwise difference against the second
operand itself, as a single map over the zipped pairs. -/
theorem zipWith_zipWith_right {β : Type} (f : ℚ → ℚ → ℚ) (h : ℚ → ℚ → β) :
    ∀ a b : List ℚ, List.zipWith h (List.zipWith f a b) b
      = (a.zip b).map fun p => h (f p.1 p.2) p.2
  | [], _ => by simp
  | _ :: _, [] => by simp
  | x :: a, y :: b => by
      simp only [List.zipWith_cons_cons, List.map_cons, List.zip_cons_cons]
      rw [zipWith_zipWith_right f h a b]

/-- Counting `true` in a mapped boolean list is counting the predicate. -/
theorem count_true_map {α : Type} (p : α → Bool) (l : List α) :
    (l.map p).count true = l.countP p := by
  induction l with
  | nil => rfl
  | cons x xs ih => simp [List.count_cons, List.countP_cons, ih]

/-- Comparing a tensor against itself produces no mismatched element under a
positive absolute tolerance and a non-negative relative tolerance. -/
theorem mismatched_self (c : List ℚ) (rtol atol : ℚ) (h0 : 0 < atol) (h1 : 0 ≤ rtol) :
    List.zipWith (fun d m => decide (d > m))
        (List.zipWith (fun x y => |x - y|) c c) (c.map fun y => atol + rtol * |y|)
      = List.replicate c.length false := by
  induction c with
  | nil => rfl
  | cons x xs ih =>
      simp only [List.zipWith_cons_cons, List.map_cons, List.length_cons,
        List.replicate_succ, List.cons.injEq]
      refine ⟨?_, ih⟩
      have hle : ¬(|x - x| > atol + rtol * |x|) := by
        rw [sub_self, abs_zero]
        have := mul_nonneg h1 (abs_nonneg x)
        push_neg
        linarith
      exact decide_eq_false hle

/-- Truncation toward zero agrees with the floor on non-negative inputs. -/
theorem pyInt_eq_floor (q : ℚ) (h : 0 ≤ q) : pyInt q = ⌊q⌋ := by
  simp [pyInt, h]

/-- Reflexivity of the tolerant comparison under the default tolerances. -/
theorem assert_close_self (c : List ℚ) :
    torch_assert_close c c (1 / 100) (1 / 1000) (1 / 1000) = Except.ok true := by
  simp only [torch_assert_close]
  rw [mismatched_self c (1 / 100) (1 / 1000) (by norm_num) (by norm_num)]
  have hcount : (List.replicate c.length false).count true = 0 := by
    simp [List.count_replicate]
  rw [hcount]
  have harg : (0 : ℚ) ≤ (c.length : ℚ) * (1 / 1000) := by positivity
  rw [pyInt_eq_floor _ harg]
  rw [if_neg]
  have : (0 : Int) ≤ ⌊(c.length : ℚ) * (1 / 1000)⌋ := Int.floor_nonneg.2 harg
  omega

/-- C4: the tolerant comparison counts as mismatched exactly the element pairs
with `|a-b| > atol + rtol*|b|`, raises the assertion exactly when the count
exceeds `⌊total * mmr⌋` (reporting the count, the allowed count, the ratio as
a percentage, and the greatest absolute and relative differences), returns
`True` otherwise, and is reflexive under the default tolerances. -/
theorem C4_tensors_close (a b : List ℚ) (rtol atol mmr : ℚ) (hmmr : 0 ≤ mmr) :
    (torch_assert_close a b rtol atol mmr =
      if (mismatchCount a b rtol atol : Int) > ⌊(a.length : ℚ) * mmr⌋ then
        Except.error
          { num_mismatched := mismatchCount a b rtol atol
            max_allowed := ⌊(a.length : ℚ) * mmr⌋
            allowed_percent := mmr * 100
            greatest_abs_diff := greatestAbsDiff a b
            greatest_rel_diff := greatestRelDiff a b }
      else Except.ok true) ∧
    (∀ c : List ℚ,
      torch_assert_close c c (1 / 100) (1 / 1000) (1 / 1000) = Except.ok true) := by
  refine ⟨?_, assert_close_self⟩
  simp only [torch_assert_close]
  rw [zipWith_zipWith_map (fun x y => |x - y|) (fun y => atol + rtol * |y|)
    (fun d m => decide (d > m)) a b]
  rw [count_true_map]
  rw [zipWith_zipWith_right (fun x y => |x - y|)
    (fun d y => d / (|y| + 1 / 1000000000000)) a b]
  rw [zipWith_eq_map_zip (fun x y => |x - y|) a b]
  rw [pyInt_eq_floor _ (mul_nonneg (by positivity) hmmr)]
  rfl

/-- C4 witness: the comparison of a small concrete tensor with itself. -/
theorem C4_tensors_close_witness :
    torch_assert_close [1, 2] [1, 2] (1 / 100) (1 / 1000) (1 / 1000) = Except.ok true :=
  (C4_tensors_close [] [] 0 0 0 (le_refl 0)).2 [1, 2]

end TL
